import Mathlib

/-!
# libbsa managed wrapper (`cli-windows/libbsa/libwrapper.cpp`)

A shallow embedding of the `BSANET` wrapper class: its return codes and save
flags, the global error string, the handle pointer `bh`, and the wrapper
operations as state-passing functions.  The archive classes themselves
(`genericbsa`, `tes3bsa`, `tes4bsa` implementations, `helpers`, `error`) are
not part of the translated sources: every call into them is an oracle of the
environment `Env`, and each such call is recorded in the result's call log.
Such a call does not change the members of the handle the wrapper itself
reads and writes.  String marshalling and the locale set-up of `bsa_open` are
left out; a null `String^` or array argument is `none`.
-/

namespace libbsa.tes4

/-! ## Constants and records of the Tes4-type BSA (`src/tes4bsa.h`)

The header declares the constants and the three on-disk records; the code
that reads and writes them is not part of the translated sources.  The
multi-character constant `BSA_MAGIC` is left out. -/

def BSA_VERSION_TES4 : Nat := 0x67
def BSA_VERSION_TES5 : Nat := 0x68

def BSA_FOLDER_RECORD_OFFSET : Nat := 36

def BSA_COMPRESSED : Nat := 0x0004

def FILE_INVERT_COMPRESSED : Nat := 0x40000000

/-- The two member types the records use. -/
inductive CType
  | uint32_t
  | uint64_t
  deriving DecidableEq, Repr

/-- The width of a member type in bytes; it is also its natural alignment. -/
def CType.size : CType → Nat
  | .uint32_t => 4
  | .uint64_t => 8

/-- The least multiple of `a` that is not below `n`. -/
def alignUp (n a : Nat) : Nat := (n + a - 1) / a * a

/-- The offset just past the last member when every member is placed at the
next multiple of its alignment. -/
def layoutEnd (members : List CType) : Nat :=
  members.foldl (fun off t => alignUp off t.size + t.size) 0

/-- The alignment of a record: the largest alignment of its members. -/
def maxAlign (members : List CType) : Nat :=
  members.foldl (fun a t => max a t.size) 1

/-- The value of `sizeof` for a record with naturally aligned members. -/
def sizeofStruct (members : List CType) : Nat :=
  alignUp (layoutEnd members) (maxAlign members)

/-- The sum of the member widths: the size of the record without padding. -/
def packedSize (members : List CType) : Nat := (members.map CType.size).sum

/-- Source `struct Header`. -/
structure Header where
  fileId : Nat
  version : Nat
  offset : Nat
  archiveFlags : Nat
  folderCount : Nat
  fileCount : Nat
  totalFolderNameLength : Nat
  totalFileNameLength : Nat
  fileFlags : Nat
  deriving DecidableEq, Repr

/-- The member types of `Header`, in declaration order. -/
def Header.members : List CType :=
  [.uint32_t, .uint32_t, .uint32_t, .uint32_t, .uint32_t, .uint32_t, .uint32_t, .uint32_t,
   .uint32_t]

/-- Source `struct FolderRecord`. -/
structure FolderRecord where
  nameHash : Nat
  count : Nat
  offset : Nat
  deriving DecidableEq, Repr

/-- The member types of `FolderRecord`, in declaration order. -/
def FolderRecord.members : List CType := [.uint64_t, .uint32_t, .uint32_t]

/-- Source `struct FileRecord`. -/
structure FileRecord where
  nameHash : Nat
  size : Nat
  offset : Nat
  deriving DecidableEq, Repr

/-- The member types of `FileRecord`, in declaration order. -/
def FileRecord.members : List CType := [.uint64_t, .uint32_t, .uint32_t]

/-- Modelled from the spec: the on-disk image of an unsigned integer of
`width` bytes, least significant byte first (the reader and writer in
`tes4bsa.cpp` are not among the sources; the spec fixes all multi-byte
integers as little-endian). -/
def leBytes (width v : Nat) : List Nat :=
  (List.range width).map fun i => v / 256 ^ i % 256

/-- Modelled from the spec: the on-disk image of a `Header`, its members in
declaration order (`tes4bsa.cpp` is not among the sources). -/
def Header.serialize (h : Header) : List Nat :=
  leBytes 4 h.fileId ++ leBytes 4 h.version ++ leBytes 4 h.offset ++
  leBytes 4 h.archiveFlags ++ leBytes 4 h.folderCount ++ leBytes 4 h.fileCount ++
  leBytes 4 h.totalFolderNameLength ++ leBytes 4 h.totalFileNameLength ++
  leBytes 4 h.fileFlags

/-- Modelled from the spec: the on-disk image of a `FolderRecord`
(`tes4bsa.cpp` is not among the sources). -/
def FolderRecord.serialize (r : FolderRecord) : List Nat :=
  leBytes 8 r.nameHash ++ leBytes 4 r.count ++ leBytes 4 r.offset

/-- Modelled from the spec: the on-disk image of a `FileRecord`
(`tes4bsa.cpp` is not among the sources). -/
def FileRecord.serialize (r : FileRecord) : List Nat :=
  leBytes 8 r.nameHash ++ leBytes 4 r.size ++ leBytes 4 r.offset

/-- Bitwise complement of a 32-bit value. -/
def not32 (x : Nat) : Nat := 0xFFFFFFFF ^^^ x

/-- Modelled from the spec: the stored size with the compression-inversion
flag masked out, `size & ~FILE_INVERT_COMPRESSED` (the code that applies the
mask is in `tes4bsa.cpp`, not among the sources). -/
def maskOut (s : Nat) : Nat := s &&& not32 FILE_INVERT_COMPRESSED

end libbsa.tes4

namespace BSAWrapper

/-! ## Constants (libwrapper.cpp, lines 55-81) -/

def LIBBSA_OK : Nat := 0
def LIBBSA_ERROR_INVALID_ARGS : Nat := 1
def LIBBSA_ERROR_NO_MEM : Nat := 2
def LIBBSA_ERROR_FILESYSTEM_ERROR : Nat := 3
def LIBBSA_ERROR_BAD_STRING : Nat := 4
def LIBBSA_ERROR_ZLIB_ERROR : Nat := 5
def LIBBSA_ERROR_PARSE_FAIL : Nat := 6
def LIBBSA_RETURN_MAX : Nat := LIBBSA_ERROR_PARSE_FAIL

def LIBBSA_VERSION_TES3 : Nat := 0x00000001
def LIBBSA_VERSION_TES4 : Nat := 0x00000002
def LIBBSA_VERSION_TES5 : Nat := 0x00000004

def LIBBSA_COMPRESS_LEVEL_0 : Nat := 0x00000010
def LIBBSA_COMPRESS_LEVEL_1 : Nat := 0x00000020
def LIBBSA_COMPRESS_LEVEL_2 : Nat := 0x00000040
def LIBBSA_COMPRESS_LEVEL_3 : Nat := 0x00000080
def LIBBSA_COMPRESS_LEVEL_4 : Nat := 0x00000100
def LIBBSA_COMPRESS_LEVEL_5 : Nat := 0x00000200
def LIBBSA_COMPRESS_LEVEL_6 : Nat := 0x00000400
def LIBBSA_COMPRESS_LEVEL_7 : Nat := 0x00000800
def LIBBSA_COMPRESS_LEVEL_8 : Nat := 0x00001000
def LIBBSA_COMPRESS_LEVEL_9 : Nat := 0x00002000
def LIBBSA_COMPRESS_LEVEL_NOCHANGE : Nat := 0x00004000

/-- The three version flags, in the order the header declares them. -/
def versionFlags : List Nat :=
  [LIBBSA_VERSION_TES3, LIBBSA_VERSION_TES4, LIBBSA_VERSION_TES5]

/-- The eleven compression flags, in the order the header declares them. -/
def compressionFlags : List Nat :=
  [LIBBSA_COMPRESS_LEVEL_0, LIBBSA_COMPRESS_LEVEL_1, LIBBSA_COMPRESS_LEVEL_2,
   LIBBSA_COMPRESS_LEVEL_3, LIBBSA_COMPRESS_LEVEL_4, LIBBSA_COMPRESS_LEVEL_5,
   LIBBSA_COMPRESS_LEVEL_6, LIBBSA_COMPRESS_LEVEL_7, LIBBSA_COMPRESS_LEVEL_8,
   LIBBSA_COMPRESS_LEVEL_9, LIBBSA_COMPRESS_LEVEL_NOCHANGE]

/-- The C test `flags & f`: true when the two words share a set bit. -/
def hasFlag (flags f : Nat) : Bool := flags &&& f != 0

/-- Subtraction of `unsigned int` values: the difference modulo 2^32. -/
def sub32 (a b : Nat) : Nat := (a + 4294967296 - b) % 4294967296

/-! ## Data model -/

/-- The two archive families: `libbsa::tes3::BSA` and `libbsa::tes4::BSA`. -/
inductive Family
  | tes3
  | tes4
  deriving DecidableEq, Repr

/-- Modelled from the spec: the content handle of an asset (`genericbsa.h` is
not among the sources).  Either a reference into the open archive or an
external filesystem path. -/
inductive ContentHandle
  | archive (offset size : Nat) (compressed : Bool)
  | external (path : String)
  deriving DecidableEq, Repr

/-- Modelled from the spec: `libbsa::BsaAsset` (`genericbsa.h` is not among the
sources).  The wrapper reads only `path`. -/
structure BsaAsset where
  path : String
  contentHandle : ContentHandle
  deriving DecidableEq, Repr

/-- Modelled from the spec: `_bsa_handle_int` (`genericbsa.h` is not among the
sources).  `family`, `path` and `assetIndex` follow the spec's Archive Handle;
`extAssets` (a `char**`, `none` for `nullptr`, an unwritten slot is `none`)
and `extAssetsNum` are the two members the wrapper reads and writes. -/
structure BsaHandle where
  family : Family
  path : String
  assetIndex : List BsaAsset
  extAssets : Option (List (Option String))
  extAssetsNum : Nat
  deriving DecidableEq, Repr

/-- The wrapper type `bsa_asset`: two `String^` members, either may be null. -/
structure bsa_asset where
  sourcePath : Option String
  destPath : Option String
  deriving DecidableEq, Repr

/-- The mutable state the wrapper works on: the member `bh` (`none` is
`nullptr`; `bhDeleted` tells whether `delete` has been applied to the object
it designates) and the global `extErrorString` (`none` is `nullptr`;
`errReleased` tells whether the text it designates has ceased to exist, as
the text of an exception does when its handler is left). -/
structure Wrapper where
  bh : Option BsaHandle
  bhDeleted : Bool
  extErrorString : Option String
  errReleased : Bool
  deriving DecidableEq, Repr

/-- The state of a freshly constructed `BSANET`: no handle, no message. -/
def Wrapper.initial : Wrapper :=
  { bh := none, bhDeleted := false, extErrorString := none, errReleased := false }

/-- A handle is open when `bh` designates an object that is still alive. -/
def Wrapper.isOpen (s : Wrapper) : Bool := s.bh.isSome && !s.bhDeleted

/-- The failures a call into the archive classes can raise. -/
inductive Failure
  | libbsaError (code : Nat) (what : String)
  | iosFailure (what : String)
  | badAlloc (what : String)
  deriving DecidableEq, Repr

/-- Calls into the archive classes, as recorded in a result's log. -/
inductive Call
  | construct (family : Family) (path : String)
  | save (path : String) (version compression : Nat)
  | getMatchingAssets (pattern : String)
  | hasAsset (path : String)
  | extractAssets (assets : List BsaAsset) (destPath : String) (overwrite : Bool)
  | extractAsset (assetPath destPath : String) (overwrite : Bool)
  deriving DecidableEq, Repr

/-- The environment: the outcome of every call that leaves the wrapper.
`none` in an `Option Failure` is a call that returns normally. -/
structure Env where
  isBSA : Family → String → Bool
  construct : Family → String → Except Failure (List BsaAsset)
  save : BsaHandle → String → Nat → Nat → Option Failure
  regexError : String → Option String
  getMatchingAssets : BsaHandle → String → Except Failure (List BsaAsset)
  fixPath : String → String
  hasAsset : BsaHandle → String → Except Failure Bool
  extractAssets : BsaHandle → List BsaAsset → String → Bool → Option Failure
  extractAsset : BsaHandle → String → String → Bool → Option Failure
  newArrayFails : Nat → Option Failure
  toNewCStringFails : String → Option Failure

/-- How a wrapper function ends. -/
inductive Outcome
  | returned (code : Nat)
  | void
  | thrown (failure : Failure)
  | undefined
  deriving DecidableEq, Repr

/-- The final value a wrapper function assigns to its output parameter, that
is, to its own copy of the handle; `Output.atCaller` tells what the variable
of the caller holds afterwards. -/
inductive Output
  | unset
  | details (text : Option String)
  | result (found : Bool)
  | assetPaths (paths : Option (List String))
  | version (major minor patch : Nat)
  deriving DecidableEq, Repr

/-- How a parameter is declared.  A handle declared `T^ x` is passed by value:
the callee works on its own copy.  A tracking reference `T^% x` would give
the callee the variable of the caller. -/
inductive Passing
  | byValue
  | byReference
  deriving DecidableEq, Repr

/-- The declaration of every output parameter of the wrapper: `String^
details`, `cli::array<String^>^ assetPaths`, `bool^ result` and the three
`unsigned int ^` of `bsa_get_version` are all handles passed by value. -/
def outputPassing : Passing := .byValue

/-- What the variable of the caller holds after the call, given the value the
callee assigned to the parameter. -/
def Output.atCaller (mode : Passing) (assigned : Output) : Output :=
  match mode with
  | .byValue => .unset
  | .byReference => assigned

/-- What one wrapper call does: how it ends, the state it leaves, the calls it
made into the archive classes, the message it handed to `c_error` (if it
returned through `c_error`) and the final value of its output parameter. -/
structure Result where
  outcome : Outcome
  state : Wrapper
  calls : List Call
  message : Option String
  output : Output
  deriving DecidableEq, Repr

/-! ## Operations -/

/-- Source `c_error`: stores the message in `extErrorString`, returns the code. -/
def c_error (s : Wrapper) (code : Nat) (what : String) : Nat × Wrapper :=
  (code, { s with extErrorString := some what, errReleased := false })

/-- A function ending in `return c_error(code, what);`. -/
def returnError (s : Wrapper) (code : Nat) (what : String) (calls : List Call)
    (output : Output) : Result :=
  { outcome := .returned (c_error s code what).1
    state := (c_error s code what).2
    calls := calls
    message := some what
    output := output }

/-- A catch handler ending in `return c_error(code, e.what());`.  `c_error`
stores the pointer `e.what()`; the exception object, and with it the text the
pointer designates, is destroyed when the handler is left. -/
def returnCaught (s : Wrapper) (code : Nat) (what : String) (calls : List Call)
    (output : Output) : Result :=
  { outcome := .returned (c_error s code what).1
    state := { (c_error s code what).2 with errReleased := true }
    calls := calls
    message := some what
    output := output }

/-- A function ending in `return LIBBSA_OK;`. -/
def returnOk (s : Wrapper) (calls : List Call) (output : Output) : Result :=
  { outcome := .returned LIBBSA_OK, state := s, calls := calls, message := none,
    output := output }

/-- A function left by an exception none of its handlers catches. -/
def throwOut (s : Wrapper) (f : Failure) (calls : List Call) (output : Output) : Result :=
  { outcome := .thrown f, state := s, calls := calls, message := none, output := output }

/-- A member access through `bh` after `delete bh`, a second `delete` of the
same object, a `delete[]` of text that `new[]` did not allocate, or a read of
text that has ceased to exist: no defined behaviour. -/
def undefinedAccess (s : Wrapper) (calls : List Call) (output : Output) : Result :=
  { outcome := .undefined, state := s, calls := calls, message := none, output := output }

/-- Source `BSANET::bsa_is_compatible`. -/
def bsa_is_compatible (versionMajor versionMinor versionPatch : Nat) : Bool :=
  if versionMajor == 2 && versionMinor == 0 && versionPatch == 0 then true else false

/-- Source `BSANET::bsa_get_version`: the three constants are assigned to the
parameters. -/
def bsa_get_version (s : Wrapper) : Result :=
  { outcome := .void, state := s, calls := [], message := none, output := .version 2 0 0 }

/-- Source `BSANET::bsa_get_error_message`.  `gcnew String(extErrorString)`
reads the text `extErrorString` designates, which is undefined once that text
has ceased to exist.  The new string is assigned to `details`, which is
declared `String^ details`: the recorded output is the value of that local
copy, and `Output.atCaller` tells what the caller's variable holds. -/
def bsa_get_error_message (s : Wrapper) (details : Option String) : Result :=
  match details with
  | none => returnError s LIBBSA_ERROR_INVALID_ARGS "Null pointer passed." [] .unset
  | some _ =>
    if s.extErrorString.isSome && s.errReleased then undefinedAccess s [] .unset
    else returnOk s [] (.details s.extErrorString)

/-- Source `BSANET::bsa_cleanup`: `delete[] extErrorString;`.  Deleting a null
pointer does nothing.  A non-null `extErrorString` is always a pointer that
`c_error` stored, a string literal or `e.what()`, never the result of
`new[]`, so deleting it is undefined. -/
def bsa_cleanup (s : Wrapper) : Result :=
  match s.extErrorString with
  | none => { outcome := .void, state := s, calls := [], message := none, output := .unset }
  | some _ => undefinedAccess s [] .unset

/-- The family `bsa_open` picks: tes3 when its detector accepts the file,
tes4 when the tes4 detector does, and tes4 again when neither does. -/
def openFamily (env : Env) (p : String) : Family :=
  if env.isBSA .tes3 p then .tes3
  else if env.isBSA .tes4 p then .tes4
  else .tes4

/-- The object a successful constructor call leaves behind. -/
def newHandle (family : Family) (p : String) (assets : List BsaAsset) : BsaHandle :=
  { family := family, path := p, assetIndex := assets, extAssets := none, extAssetsNum := 0 }

/-- Source `BSANET::bsa_open`. -/
def bsa_open (env : Env) (s : Wrapper) (path : Option String) : Result :=
  match path with
  | none => returnError s LIBBSA_ERROR_INVALID_ARGS "Null pointer passed." [] .unset
  | some p =>
    match env.construct (openFamily env p) p with
    | .ok assets =>
      returnOk { s with bh := some (newHandle (openFamily env p) p assets), bhDeleted := false }
        [.construct (openFamily env p) p] .unset
    | .error (.libbsaError code what) =>
      returnCaught s code what [.construct (openFamily env p) p] .unset
    | .error (.iosFailure what) =>
      returnCaught s LIBBSA_ERROR_FILESYSTEM_ERROR what [.construct (openFamily env p) p] .unset
    | .error (.badAlloc what) =>
      throwOut s (.badAlloc what) [.construct (openFamily env p) p] .unset

/-- The try block of `bsa_save`: the call of `Save` with its two handlers. -/
def saveCall (env : Env) (s : Wrapper) (h : BsaHandle) (p : String)
    (version compression : Nat) : Result :=
  match env.save h p version compression with
  | none => returnOk s [.save p version compression] .unset
  | some (.libbsaError code what) =>
    returnCaught s code what [.save p version compression] .unset
  | some (.iosFailure what) =>
    returnCaught s LIBBSA_ERROR_FILESYSTEM_ERROR what [.save p version compression] .unset
  | some (.badAlloc what) =>
    throwOut s (.badAlloc what) [.save p version compression] .unset

/-- Source `BSANET::bsa_save`. -/
def bsa_save (env : Env) (s : Wrapper) (path : Option String) (flags : Nat) : Result :=
  match s.bh, path with
  | some h, some p =>
    if hasFlag flags LIBBSA_VERSION_TES3 && !(hasFlag flags LIBBSA_COMPRESS_LEVEL_0) then
      returnError s LIBBSA_ERROR_INVALID_ARGS "Morrowind BSAs cannot be compressed." [] .unset
    else
      let version0 := if hasFlag flags LIBBSA_VERSION_TES3 then LIBBSA_VERSION_TES3 else 0
      if hasFlag flags LIBBSA_VERSION_TES4 && decide (version0 > 0) then
        returnError s LIBBSA_ERROR_INVALID_ARGS "Cannot specify more than one version." [] .unset
      else
        let version1 := if hasFlag flags LIBBSA_VERSION_TES4 then LIBBSA_VERSION_TES4 else version0
        if hasFlag flags LIBBSA_VERSION_TES5 && decide (version1 > 0) then
          returnError s LIBBSA_ERROR_INVALID_ARGS "Cannot specify more than one version." [] .unset
        else
          let version := if hasFlag flags LIBBSA_VERSION_TES5 then LIBBSA_VERSION_TES5 else version1
          let compression := flags ^^^ version
          if compression &&& sub32 compression 1 == 0 then
            returnError s LIBBSA_ERROR_INVALID_ARGS "Invalid compression level specified." []
              .unset
          else if s.bhDeleted then
            undefinedAccess s [] .unset
          else
            saveCall env s h p version compression
  | _, _ => returnError s LIBBSA_ERROR_INVALID_ARGS "Null pointer passed." [] .unset

/-- Source `BSANET::bsa_close`: `delete bh;`.  The pointer keeps its value.
Deleting a null pointer does nothing; deleting twice is undefined. -/
def bsa_close (s : Wrapper) : Result :=
  match s.bh with
  | none => { outcome := .void, state := s, calls := [], message := none, output := .unset }
  | some _ =>
    if s.bhDeleted then undefinedAccess s [] .unset
    else
      { outcome := .void, state := { s with bhDeleted := true }, calls := [], message := none,
        output := .unset }

/-- The block "Free memory if in use" of `bsa_get_assets` and
`bsa_extract_assets`. -/
def freeExtAssets (h : BsaHandle) : BsaHandle :=
  if h.extAssets.isSome then { h with extAssets := none, extAssetsNum := 0 } else h

/-- The loop that copies the matched paths into the slots of the new array.
On a failing copy the remaining slots stay unwritten. -/
def fillFrom (env : Env) : List BsaAsset → List (Option String) × Option Failure
  | [] => ([], none)
  | a :: rest =>
    match env.toNewCStringFails a.path with
    | some f => (List.replicate (rest.length + 1) none, some f)
    | none => (some a.path :: (fillFrom env rest).1, (fillFrom env rest).2)

/-- The body of the try block "Fill external array". -/
def fillExtAssets (env : Env) (h : BsaHandle) (temp : List BsaAsset) :
    BsaHandle × Option Failure :=
  match env.newArrayFails temp.length with
  | some f => ({ h with extAssetsNum := temp.length }, some f)
  | none =>
    ({ h with extAssetsNum := temp.length, extAssets := some (fillFrom env temp).1 },
      (fillFrom env temp).2)

/-- The tail shared by `bsa_get_assets` and `bsa_extract_assets`: fill the
external array from `temp`, then convert it to the managed output array. -/
def fillAndOutput (env : Env) (s : Wrapper) (h : BsaHandle) (temp : List BsaAsset)
    (calls : List Call) : Result :=
  match (fillExtAssets env h temp).2 with
  | some (.badAlloc what) =>
    returnCaught { s with bh := some (fillExtAssets env h temp).1 } LIBBSA_ERROR_NO_MEM what calls
      (.assetPaths none)
  | some (.libbsaError code what) =>
    returnCaught { s with bh := some (fillExtAssets env h temp).1 } code what calls
      (.assetPaths none)
  | some (.iosFailure what) =>
    throwOut { s with bh := some (fillExtAssets env h temp).1 } (.iosFailure what) calls
      (.assetPaths none)
  | none =>
    returnOk { s with bh := some (fillExtAssets env h temp).1 } calls
      (.assetPaths (some (((fillExtAssets env h temp).1.extAssets.getD []).reduceOption)))

/-- Source `BSANET::bsa_get_assets`. -/
def bsa_get_assets (env : Env) (s : Wrapper) (contentPath : Option String)
    (assetPaths : Option (List String)) : Result :=
  match s.bh, contentPath, assetPaths with
  | some h, some pattern, some _ =>
    if s.bhDeleted then undefinedAccess s [] .unset
    else
      match env.regexError pattern with
      | some what =>
        returnCaught { s with bh := some (freeExtAssets h) } LIBBSA_ERROR_INVALID_ARGS what []
          (.assetPaths none)
      | none =>
        match env.getMatchingAssets (freeExtAssets h) pattern with
        | .error f =>
          throwOut { s with bh := some (freeExtAssets h) } f [.getMatchingAssets pattern]
            (.assetPaths none)
        | .ok temp =>
          if temp.isEmpty then
            returnOk { s with bh := some (freeExtAssets h) } [.getMatchingAssets pattern]
              (.assetPaths none)
          else
            fillAndOutput env s (freeExtAssets h) temp [.getMatchingAssets pattern]
  | _, _, _ => returnError s LIBBSA_ERROR_INVALID_ARGS "Null pointer passed." [] .unset

/-- Source `BSANET::bsa_contains_asset`. -/
def bsa_contains_asset (env : Env) (s : Wrapper) (assetPath : Option String)
    (result : Option Bool) : Result :=
  match s.bh, assetPath, result with
  | some h, some a, some _ =>
    if s.bhDeleted then undefinedAccess s [] .unset
    else
      match env.hasAsset h (env.fixPath a) with
      | .ok found => returnOk s [.hasAsset (env.fixPath a)] (.result found)
      | .error f => throwOut s f [.hasAsset (env.fixPath a)] .unset
  | _, _, _ => returnError s LIBBSA_ERROR_INVALID_ARGS "Null pointer passed." [] .unset

/-- Source `BSANET::bsa_set_assets`. -/
def bsa_set_assets (s : Wrapper) (assets : Option (List bsa_asset)) : Result :=
  match s.bh, assets with
  | some _, some _ => returnOk s [] .unset
  | _, _ => returnError s LIBBSA_ERROR_INVALID_ARGS "Null pointer passed." [] .unset

/-- Source `BSANET::bsa_add_asset`: only `bh` is tested. -/
def bsa_add_asset (s : Wrapper) (_asset : Option bsa_asset) : Result :=
  match s.bh with
  | some _ => returnOk s [] .unset
  | none => returnError s LIBBSA_ERROR_INVALID_ARGS "Null pointer passed." [] .unset

/-- Source `BSANET::bsa_remove_asset`. -/
def bsa_remove_asset (s : Wrapper) (assetPath : Option String) : Result :=
  match s.bh, assetPath with
  | some _, some _ => returnOk s [] .unset
  | _, _ => returnError s LIBBSA_ERROR_INVALID_ARGS "Null pointer passed." [] .unset

/-- Source `BSANET::bsa_extract_assets`. -/
def bsa_extract_assets (env : Env) (s : Wrapper) (contentPath destPath : Option String)
    (assetPaths : Option (List String)) (overwrite : Bool) : Result :=
  match s.bh, contentPath, destPath, assetPaths with
  | some h, some pattern, some dest, some _ =>
    if s.bhDeleted then undefinedAccess s [] .unset
    else
      match env.regexError pattern with
      | some what =>
        returnCaught { s with bh := some (freeExtAssets h) } LIBBSA_ERROR_INVALID_ARGS what []
          (.assetPaths none)
      | none =>
        match env.getMatchingAssets (freeExtAssets h) pattern with
        | .error f =>
          throwOut { s with bh := some (freeExtAssets h) } f [.getMatchingAssets pattern]
            (.assetPaths none)
        | .ok temp =>
          if temp.isEmpty then
            returnOk { s with bh := some (freeExtAssets h) } [.getMatchingAssets pattern]
              (.assetPaths none)
          else
            match env.extractAssets (freeExtAssets h) temp dest overwrite with
            | some (.libbsaError code what) =>
              returnCaught { s with bh := some (freeExtAssets h) } code what
                [.getMatchingAssets pattern, .extractAssets temp dest overwrite]
                (.assetPaths none)
            | some f =>
              throwOut { s with bh := some (freeExtAssets h) } f
                [.getMatchingAssets pattern, .extractAssets temp dest overwrite]
                (.assetPaths none)
            | none =>
              fillAndOutput env s (freeExtAssets h) temp
                [.getMatchingAssets pattern, .extractAssets temp dest overwrite]
  | _, _, _, _ => returnError s LIBBSA_ERROR_INVALID_ARGS "Null pointer passed." [] .unset

/-- Source `BSANET::bsa_extract_asset`. -/
def bsa_extract_asset (env : Env) (s : Wrapper) (assetPath destPath : Option String)
    (overwrite : Bool) : Result :=
  match s.bh, assetPath, destPath with
  | some h, some a, some dest =>
    if s.bhDeleted then undefinedAccess s [] .unset
    else
      match env.extractAsset h (env.fixPath a) dest overwrite with
      | none => returnOk s [.extractAsset (env.fixPath a) dest overwrite] .unset
      | some (.libbsaError code what) =>
        returnCaught s code what [.extractAsset (env.fixPath a) dest overwrite] .unset
      | some f => throwOut s f [.extractAsset (env.fixPath a) dest overwrite] .unset
  | _, _, _ => returnError s LIBBSA_ERROR_INVALID_ARGS "Null pointer passed." [] .unset

/-! ## Sequences of calls -/

/-- One call of a wrapper function with its arguments. -/
inductive Op
  | is_compatible (versionMajor versionMinor versionPatch : Nat)
  | get_version
  | get_error_message (details : Option String)
  | cleanup
  | bsa_open (path : Option String)
  | save (path : Option String) (flags : Nat)
  | close
  | get_assets (contentPath : Option String) (assetPaths : Option (List String))
  | contains_asset (assetPath : Option String) (result : Option Bool)
  | set_assets (assets : Option (List bsa_asset))
  | add_asset (asset : Option bsa_asset)
  | remove_asset (assetPath : Option String)
  | extract_assets (contentPath destPath : Option String)
      (assetPaths : Option (List String)) (overwrite : Bool)
  | extract_asset (assetPath destPath : Option String) (overwrite : Bool)
  deriving DecidableEq, Repr

/-- The effect of one call in a given environment. -/
def step (env : Env) (s : Wrapper) : Op → Result
  | .is_compatible a b c =>
    { outcome := .void, state := s, calls := [], message := none,
      output := .result (bsa_is_compatible a b c) }
  | .get_version => bsa_get_version s
  | .get_error_message details => bsa_get_error_message s details
  | .cleanup => bsa_cleanup s
  | .bsa_open path => bsa_open env s path
  | .save path flags => bsa_save env s path flags
  | .close => bsa_close s
  | .get_assets contentPath assetPaths => bsa_get_assets env s contentPath assetPaths
  | .contains_asset assetPath result => bsa_contains_asset env s assetPath result
  | .set_assets assets => bsa_set_assets s assets
  | .add_asset asset => bsa_add_asset s asset
  | .remove_asset assetPath => bsa_remove_asset s assetPath
  | .extract_assets contentPath destPath assetPaths overwrite =>
    bsa_extract_assets env s contentPath destPath assetPaths overwrite
  | .extract_asset assetPath destPath overwrite =>
    bsa_extract_asset env s assetPath destPath overwrite

/-- The results of a sequence of calls, each made in the environment it is
paired with, starting from state `s`. -/
def runTrace : Wrapper → List (Env × Op) → List Result
  | _, [] => []
  | s, (env, op) :: rest => step env s op :: runTrace (step env s op).state rest

/-- The state after a sequence of calls. -/
def runState : Wrapper → List (Env × Op) → Wrapper
  | s, [] => s
  | s, (env, op) :: rest => runState (step env s op).state rest

/-! ## Concrete environments and handles used at concrete inputs -/

/-- An environment in which every call into the archive classes succeeds, no
file is recognised, every pattern compiles and no asset matches. -/
def quietEnv : Env :=
  { isBSA := fun _ _ => false
    construct := fun _ _ => .ok []
    save := fun _ _ _ _ => none
    regexError := fun _ => none
    getMatchingAssets := fun _ _ => .ok []
    fixPath := fun p => p
    hasAsset := fun _ _ => .ok false
    extractAssets := fun _ _ _ _ => none
    extractAsset := fun _ _ _ _ => none
    newArrayFails := fun _ => none
    toNewCStringFails := fun _ => none }

/-- An empty tes4 handle for the file `a.bsa`. -/
def emptyHandle : BsaHandle := newHandle .tes4 "a.bsa" []

/-- A wrapper whose handle is open on `emptyHandle`. -/
def openWrapper : Wrapper :=
  { bh := some emptyHandle, bhDeleted := false, extErrorString := none, errReleased := false }

/-- The state reached from a fresh wrapper by a successful `bsa_open` followed
by `bsa_close`. -/
def closedWrapper : Wrapper :=
  runState Wrapper.initial [(quietEnv, .bsa_open (some "a.bsa")), (quietEnv, .close)]

/-- The family the wrapper's documentation promises: tes3 exactly when the
tes3 detector recognises the file, tes4 otherwise. -/
def documentedFamily (env : Env) (p : String) : Family :=
  if env.isBSA .tes3 p then .tes3 else .tes4

/-- The return code the wrapper's taxonomy assigns to a failure: a libbsa
error keeps its own code, a stream failure is a filesystem error, a failed
allocation is out-of-memory. -/
def Failure.returnCode : Failure → Nat
  | .libbsaError code _ => code
  | .iosFailure _ => LIBBSA_ERROR_FILESYSTEM_ERROR
  | .badAlloc _ => LIBBSA_ERROR_NO_MEM

/-- The message a failure carries (`e.what()`). -/
def Failure.what : Failure → String
  | .libbsaError _ what => what
  | .iosFailure what => what
  | .badAlloc what => what

/-- The failure is a failed allocation. -/
def Failure.isBadAlloc : Failure → Bool
  | .badAlloc _ => true
  | _ => false

/-- The failure is a stream failure. -/
def Failure.isIosFailure : Failure → Bool
  | .iosFailure _ => true
  | _ => false

/-- A call translated failure `f`: it returned the code of `f` and left the
message of `f` in `extErrorString`. -/
def Translated (r : Result) (f : Failure) : Prop :=
  r.outcome = .returned f.returnCode ∧ r.state.extErrorString = some f.what

/-- An environment in which the constructors cannot allocate, `Extract` hits a
stream failure and `HasAsset` raises a libbsa error. -/
def brokenEnv : Env :=
  { quietEnv with
    construct := fun _ _ => .error (.badAlloc "bad allocation")
    extractAsset := fun _ _ _ _ => some (.iosFailure "basic_ios::clear")
    hasAsset := fun _ _ => .error (.libbsaError LIBBSA_ERROR_BAD_STRING "bad string") }

/-- An environment in which the constructors fail to parse, `Save` hits a
stream failure, one asset matches every pattern, both `Extract` routines raise
a libbsa error and the result array cannot be allocated. -/
def failingEnv : Env :=
  { quietEnv with
    construct := fun _ _ => .error (.libbsaError LIBBSA_ERROR_PARSE_FAIL "not a BSA")
    save := fun _ _ _ _ => some (.iosFailure "write failed")
    getMatchingAssets := fun _ _ => .ok [⟨"meshes/a.nif", .archive 36 10 false⟩]
    extractAssets := fun _ _ _ _ =>
      some (.libbsaError LIBBSA_ERROR_ZLIB_ERROR "inflate failed")
    extractAsset := fun _ _ _ _ =>
      some (.libbsaError LIBBSA_ERROR_FILESYSTEM_ERROR "file exists")
    newArrayFails := fun _ => some (.badAlloc "bad allocation") }

/-- An environment in which one asset matches every pattern. -/
def matchingEnv : Env :=
  { quietEnv with
    getMatchingAssets := fun _ _ => .ok [⟨"meshes/a.nif", .archive 36 10 false⟩] }

/-- An environment in which no pattern compiles. -/
def badPatternEnv : Env :=
  { quietEnv with regexError := fun _ => some "Unmatched marking parenthesis" }

/-- The open handle after a call of `bsa_get_assets` that matched one asset. -/
def listedHandle : BsaHandle :=
  { emptyHandle with extAssets := some [some "meshes/a.nif"], extAssetsNum := 1 }

/-- A wrapper whose handle is open on `listedHandle`. -/
def listedWrapper : Wrapper :=
  { bh := some listedHandle, bhDeleted := false, extErrorString := none,
    errReleased := false }

/-- A libbsa error carries a code other than `LIBBSA_OK`. -/
def Failure.codeNonOk : Failure → Bool
  | .libbsaError code _ => code != LIBBSA_OK
  | _ => true

/-- Every failure the environment raises inside a try block of the wrapper
carries a code other than `LIBBSA_OK`. -/
structure Env.RaisesNonOk (env : Env) : Prop where
  construct : ∀ fam p f, env.construct fam p = .error f → f.codeNonOk = true
  save : ∀ h p v c f, env.save h p v c = some f → f.codeNonOk = true
  extractAssets : ∀ h t d o f, env.extractAssets h t d o = some f → f.codeNonOk = true
  extractAsset : ∀ h a d o f, env.extractAsset h a d o = some f → f.codeNonOk = true
  newArray : ∀ n f, env.newArrayFails n = some f → f.codeNonOk = true
  toNewCString : ∀ p f, env.toNewCStringFails p = some f → f.codeNonOk = true

/-- The call returned a code other than `LIBBSA_OK`. -/
def Result.returnedNonOk (r : Result) : Bool :=
  match r.outcome with
  | .returned code => code != LIBBSA_OK
  | _ => false

/-- The message of the last call of a trace that returned a code other than
`LIBBSA_OK`; `init` when there is no such call. -/
def lastFailureMessage (init : Option String) : List Result → Option String
  | [] => init
  | r :: rest => lastFailureMessage (if r.returnedNonOk then r.message else init) rest

/-- The call either returned a non-OK code and left its message in
`extErrorString`, or left there the message `before`. -/
def KeepsOrRecords (r : Result) (before : Option String) : Prop :=
  r.state.extErrorString = if r.returnedNonOk then r.message else before

/-- Two or more of the three version bits are set in `flags`. -/
def twoVersionBits (flags : Nat) : Bool :=
  (hasFlag flags LIBBSA_VERSION_TES3 && hasFlag flags LIBBSA_VERSION_TES4) ||
  (hasFlag flags LIBBSA_VERSION_TES3 && hasFlag flags LIBBSA_VERSION_TES5) ||
  (hasFlag flags LIBBSA_VERSION_TES4 && hasFlag flags LIBBSA_VERSION_TES5)

/-- Every flag word the header documents as valid: TES4 or TES5 with one of
the eleven compression flags, and TES3 with level 0. -/
def documentedFlagWords : List Nat :=
  (compressionFlags.map fun c => LIBBSA_VERSION_TES4 ||| c) ++
  (compressionFlags.map fun c => LIBBSA_VERSION_TES5 ||| c) ++
  [LIBBSA_VERSION_TES3 ||| LIBBSA_COMPRESS_LEVEL_0]

/-- A run in which a null argument is rejected, an open fails to parse, a
second open succeeds, a query succeeds and the handle is closed. -/
def sampleRun : List (Env × Op) :=
  [(quietEnv, .get_assets none none),
   (failingEnv, .bsa_open (some "a.bsa")),
   (quietEnv, .bsa_open (some "b.bsa")),
   (quietEnv, .contains_asset (some "meshes/a.nif") (some false)),
   (quietEnv, .close)]

/-- The state an allocation failure leaves behind: `bsa_get_assets` matched
one asset on the open handle and could not allocate the result array. -/
def staleWrapper : Wrapper :=
  (bsa_get_assets failingEnv openWrapper (some ".*") (some [])).state

/-- The stored result list is consistent: a null array goes with a count
of 0. -/
def BsaHandle.listConsistent (h : BsaHandle) : Bool :=
  h.extAssets.isSome || h.extAssetsNum == 0

/-- The index of the handle holds an asset with internal path `p`. -/
def BsaHandle.hasPath (h : BsaHandle) (p : String) : Bool :=
  h.assetIndex.any fun a => a.path == p

/-- A tes4 handle whose index holds the asset `meshes/a.nif`. -/
def indexedHandle : BsaHandle :=
  newHandle .tes4 "a.bsa" [⟨"meshes/a.nif", .archive 36 10 false⟩]

/-- A wrapper whose handle is open on `indexedHandle`. -/
def indexedWrapper : Wrapper :=
  { bh := some indexedHandle, bhDeleted := false, extErrorString := none,
    errReleased := false }

/-- An environment in which two assets match every pattern. -/
def twoMatchEnv : Env :=
  { quietEnv with
    getMatchingAssets := fun _ _ =>
      .ok [⟨"meshes/a.nif", .archive 36 10 false⟩, ⟨"meshes/b.nif", .archive 46 12 true⟩] }

/-! ## Flag validation in `bsa_save` -/

/-- C1, evaluated on the code: with an open handle and a non-null path, the
documented flag word `LIBBSA_VERSION_TES4 | LIBBSA_COMPRESS_LEVEL_0` is
rejected.  `bsa_save` returns `LIBBSA_ERROR_INVALID_ARGS` with the message
"Invalid compression level specified." and `Save` is not called, whatever the
environment. -/
theorem bsa_save_rejects_tes4_level0 (env : Env) (h : BsaHandle) (p : String)
    (e : Option String) (rel : Bool) :
    bsa_save env { bh := some h, bhDeleted := false, extErrorString := e, errReleased := rel }
        (some p) (LIBBSA_VERSION_TES4 ||| LIBBSA_COMPRESS_LEVEL_0) =
      returnError { bh := some h, bhDeleted := false, extErrorString := e, errReleased := rel }
        LIBBSA_ERROR_INVALID_ARGS "Invalid compression level specified." [] .unset := by
  rfl

/-- The same holds for each of the 23 documented flag words: none of them gets
past the compression test. -/
theorem bsa_save_rejects_documented_words (env : Env) (h : BsaHandle) (p : String)
    (e : Option String) (rel : Bool) (i : Fin 23) :
    (bsa_save env { bh := some h, bhDeleted := false, extErrorString := e, errReleased := rel }
        (some p) (documentedFlagWords.getD i.val 0)).outcome =
      .returned LIBBSA_ERROR_INVALID_ARGS ∧
    (bsa_save env { bh := some h, bhDeleted := false, extErrorString := e, errReleased := rel }
        (some p) (documentedFlagWords.getD i.val 0)).calls = [] := by
  fin_cases i <;> exact ⟨rfl, rfl⟩

/-- C2, evaluated on the code: with an open handle and a non-null path, the
flag word `TES4 | LEVEL_1 | LEVEL_2`, which has two compression bits set, is
accepted.  `Save` is called with version `TES4` and compression
`LEVEL_1 | LEVEL_2`, and `bsa_save` returns `LIBBSA_OK` when `Save` succeeds. -/
theorem bsa_save_accepts_two_compression_bits :
    bsa_save quietEnv openWrapper (some "out.bsa")
        (LIBBSA_VERSION_TES4 ||| LIBBSA_COMPRESS_LEVEL_1 ||| LIBBSA_COMPRESS_LEVEL_2) =
      returnOk openWrapper
        [.save "out.bsa" LIBBSA_VERSION_TES4
          (LIBBSA_COMPRESS_LEVEL_1 ||| LIBBSA_COMPRESS_LEVEL_2)] .unset := by
  decide

/-- C3: with an open handle and a non-null path, a flag word in which
two or more of the version bits TES3, TES4, TES5 are set makes `bsa_save`
return `LIBBSA_ERROR_INVALID_ARGS` without any call into the archive object. -/
theorem bsa_save_two_version_bits (env : Env) (s : Wrapper) (p : String) (flags : Nat)
    (hopen : s.isOpen = true) (hv : twoVersionBits flags = true) :
    (bsa_save env s (some p) flags).outcome = .returned LIBBSA_ERROR_INVALID_ARGS ∧
    (bsa_save env s (some p) flags).calls = [] := by
  obtain ⟨bh, del, err, rel⟩ := s
  cases bh with
  | none => simp [Wrapper.isOpen] at hopen
  | some h =>
    simp only [twoVersionBits, Bool.or_eq_true, Bool.and_eq_true] at hv
    simp only [bsa_save]
    cases h3 : hasFlag flags LIBBSA_VERSION_TES3 <;>
    cases h4 : hasFlag flags LIBBSA_VERSION_TES4 <;>
    cases h5 : hasFlag flags LIBBSA_VERSION_TES5 <;>
    cases h0 : hasFlag flags LIBBSA_COMPRESS_LEVEL_0 <;>
    simp [h3, h4, h5, h0] at hv <;>
    simp [returnError, c_error, LIBBSA_VERSION_TES3, LIBBSA_VERSION_TES4]

/-- Witness for C3: the word `TES4 | TES5 | LEVEL_0` on an open handle. -/
theorem bsa_save_two_version_bits_witness :
    (bsa_save quietEnv openWrapper (some "out.bsa") 0x16).outcome =
        .returned LIBBSA_ERROR_INVALID_ARGS ∧
    (bsa_save quietEnv openWrapper (some "out.bsa") 0x16).calls = [] :=
  bsa_save_two_version_bits quietEnv openWrapper "out.bsa" 0x16 (by decide) (by decide)

/-- C4, evaluated on the code: with an open handle and a non-null path, the
flag word `LEVEL_0 | LEVEL_1`, which has no version bit set, is accepted.
`Save` is called with version 0 and `bsa_save` returns `LIBBSA_OK`. -/
theorem bsa_save_accepts_missing_version :
    bsa_save quietEnv openWrapper (some "out.bsa")
        (LIBBSA_COMPRESS_LEVEL_0 ||| LIBBSA_COMPRESS_LEVEL_1) =
      returnOk openWrapper
        [.save "out.bsa" 0 (LIBBSA_COMPRESS_LEVEL_0 ||| LIBBSA_COMPRESS_LEVEL_1)] .unset := by
  decide

/-- C5, evaluated on the code: with an open handle and a non-null path, the
flag word `TES3 | LEVEL_0 | LEVEL_5` is accepted.  `Save` is called with
version `TES3` and a compression word that contains `LEVEL_5`, and `bsa_save`
returns `LIBBSA_OK`. -/
theorem bsa_save_accepts_tes3_with_level5 :
    bsa_save quietEnv openWrapper (some "out.bsa")
        (LIBBSA_VERSION_TES3 ||| LIBBSA_COMPRESS_LEVEL_0 ||| LIBBSA_COMPRESS_LEVEL_5) =
      returnOk openWrapper
        [.save "out.bsa" LIBBSA_VERSION_TES3
          (LIBBSA_COMPRESS_LEVEL_0 ||| LIBBSA_COMPRESS_LEVEL_5)] .unset := by
  decide

/-- The guard for Morrowind archives on its own: with an open handle and a
non-null path, a flag word with TES3 set and `LEVEL_0` not set is rejected
with `LIBBSA_ERROR_INVALID_ARGS` before any call into the archive object. -/
theorem bsa_save_tes3_without_level0 (env : Env) (s : Wrapper) (p : String) (flags : Nat)
    (hopen : s.isOpen = true) (h3 : hasFlag flags LIBBSA_VERSION_TES3 = true)
    (h0 : hasFlag flags LIBBSA_COMPRESS_LEVEL_0 = false) :
    bsa_save env s (some p) flags =
      returnError s LIBBSA_ERROR_INVALID_ARGS "Morrowind BSAs cannot be compressed." []
        .unset := by
  obtain ⟨bh, del, err, rel⟩ := s
  cases bh with
  | none => simp [Wrapper.isOpen] at hopen
  | some h => simp [bsa_save, h3, h0]

/-! ## Handle lifecycle -/

/-- With a null handle every operation on the handle returns
`LIBBSA_ERROR_INVALID_ARGS` through the null-pointer test and makes no call
into the archive object. -/
theorem null_handle_invalid_args (env : Env) (del rel : Bool) (e : Option String)
    (path dest : Option String) (flags : Nat) (paths : Option (List String))
    (res : Option Bool) (assets : Option (List bsa_asset)) (asset : Option bsa_asset)
    (ow : Bool) :
    bsa_save env ⟨none, del, e, rel⟩ path flags =
      returnError ⟨none, del, e, rel⟩ LIBBSA_ERROR_INVALID_ARGS "Null pointer passed." [] .unset ∧
    bsa_get_assets env ⟨none, del, e, rel⟩ path paths =
      returnError ⟨none, del, e, rel⟩ LIBBSA_ERROR_INVALID_ARGS "Null pointer passed." [] .unset ∧
    bsa_contains_asset env ⟨none, del, e, rel⟩ path res =
      returnError ⟨none, del, e, rel⟩ LIBBSA_ERROR_INVALID_ARGS "Null pointer passed." [] .unset ∧
    bsa_set_assets ⟨none, del, e, rel⟩ assets =
      returnError ⟨none, del, e, rel⟩ LIBBSA_ERROR_INVALID_ARGS "Null pointer passed." [] .unset ∧
    bsa_add_asset ⟨none, del, e, rel⟩ asset =
      returnError ⟨none, del, e, rel⟩ LIBBSA_ERROR_INVALID_ARGS "Null pointer passed." [] .unset ∧
    bsa_remove_asset ⟨none, del, e, rel⟩ path =
      returnError ⟨none, del, e, rel⟩ LIBBSA_ERROR_INVALID_ARGS "Null pointer passed." [] .unset ∧
    bsa_extract_assets env ⟨none, del, e, rel⟩ path dest paths ow =
      returnError ⟨none, del, e, rel⟩ LIBBSA_ERROR_INVALID_ARGS "Null pointer passed." [] .unset ∧
    bsa_extract_asset env ⟨none, del, e, rel⟩ path dest ow =
      returnError ⟨none, del, e, rel⟩ LIBBSA_ERROR_INVALID_ARGS "Null pointer passed." [] .unset := by
  refine ⟨rfl, rfl, rfl, rfl, rfl, rfl, rfl, rfl⟩

/-- C6, evaluated on the code: after a successful `bsa_open` and a
`bsa_close` the handle is not open, yet `bh` is still non-null.  The three
mutation operations return `LIBBSA_OK` instead of `LIBBSA_ERROR_INVALID_ARGS`,
and `bsa_contains_asset`, `bsa_get_assets`, `bsa_extract_assets`,
`bsa_extract_asset` and (with a flag word that passes validation) `bsa_save`
get past the null test and access the deleted object. -/
theorem operations_after_close :
    closedWrapper.isOpen = false ∧ closedWrapper.bh ≠ none ∧
    (bsa_set_assets closedWrapper (some [])).outcome = .returned LIBBSA_OK ∧
    (bsa_add_asset closedWrapper (some ⟨some "x.dds", some "textures/x.dds"⟩)).outcome =
      .returned LIBBSA_OK ∧
    (bsa_remove_asset closedWrapper (some "textures/x.dds")).outcome = .returned LIBBSA_OK ∧
    (bsa_contains_asset quietEnv closedWrapper (some "textures/x.dds") (some false)).outcome =
      .undefined ∧
    (bsa_get_assets quietEnv closedWrapper (some ".*") (some [])).outcome = .undefined ∧
    (bsa_extract_assets quietEnv closedWrapper (some ".*") (some "out") (some []) true).outcome =
      .undefined ∧
    (bsa_extract_asset quietEnv closedWrapper (some "textures/x.dds") (some "x.dds")
      true).outcome = .undefined ∧
    (bsa_save quietEnv closedWrapper (some "b.bsa")
      (LIBBSA_VERSION_TES4 ||| LIBBSA_COMPRESS_LEVEL_1 ||| LIBBSA_COMPRESS_LEVEL_2)).outcome =
      .undefined := by
  decide

/-- C7: for a non-null path, `bsa_open` calls the constructor of the tes3
family exactly when the tes3 detector recognises the file and the constructor
of the tes4 family otherwise, whatever the tes4 detector says.  When that
constructor succeeds the call returns `LIBBSA_OK` and `bh` designates a live
handle of that family. -/
theorem bsa_open_family (env : Env) (s : Wrapper) (p : String) (assets : List BsaAsset)
    (hc : env.construct (documentedFamily env p) p = .ok assets) :
    bsa_open env s (some p) =
      returnOk { s with bh := some (newHandle (documentedFamily env p) p assets),
                        bhDeleted := false }
        [.construct (documentedFamily env p) p] .unset := by
  have hf : openFamily env p = documentedFamily env p := by
    unfold openFamily documentedFamily
    cases env.isBSA .tes3 p <;> cases env.isBSA .tes4 p <;> rfl
  simp only [bsa_open, hf, hc]

/-- Witness for C7: a path neither detector recognises yields an open tes4
handle and `LIBBSA_OK`. -/
theorem bsa_open_family_witness :
    bsa_open quietEnv Wrapper.initial (some "new.bsa") =
      returnOk { bh := some (newHandle .tes4 "new.bsa" []), bhDeleted := false,
                 extErrorString := none, errReleased := false }
        [.construct .tes4 "new.bsa"] .unset :=
  bsa_open_family quietEnv Wrapper.initial "new.bsa" [] rfl

/-! ## Failures of the archive calls -/

/-- C8, evaluated on the code: a stream failure raised by `Extract` leaves
`bsa_extract_asset` as an exception, an allocation failure raised by the
constructor leaves `bsa_open`, and a libbsa error raised by `HasAsset` leaves
`bsa_contains_asset`.  No code is returned and no message is recorded. -/
theorem failure_crosses_boundary :
    bsa_extract_asset brokenEnv openWrapper (some "meshes/a.nif") (some "a.nif") true =
      throwOut openWrapper (.iosFailure "basic_ios::clear")
        [.extractAsset "meshes/a.nif" "a.nif" true] .unset ∧
    bsa_open brokenEnv Wrapper.initial (some "a.bsa") =
      throwOut Wrapper.initial (.badAlloc "bad allocation") [.construct .tes4 "a.bsa"]
        .unset ∧
    bsa_contains_asset brokenEnv openWrapper (some "meshes/a.nif") (some false) =
      throwOut openWrapper (.libbsaError LIBBSA_ERROR_BAD_STRING "bad string")
        [.hasAsset "meshes/a.nif"] .unset := by
  decide

/-- Either `bsa_save` makes no call into the archive object, or it is the try
block around `Save` for some version and compression. -/
theorem bsa_save_calls (env : Env) (s : Wrapper) (h : BsaHandle) (p : String) (flags : Nat)
    (hbh : s.bh = some h) (hlive : s.bhDeleted = false) :
    (bsa_save env s (some p) flags).calls = [] ∨
    ∃ v c, bsa_save env s (some p) flags = saveCall env s h p v c := by
  obtain ⟨bh, del, err, rel⟩ := s
  simp only at hbh hlive
  subst hbh hlive
  have d3 : decide (LIBBSA_VERSION_TES3 > 0) = true := by decide
  have d4 : decide (LIBBSA_VERSION_TES4 > 0) = true := by decide
  have d0 : decide (0 > 0) = false := by decide
  simp only [bsa_save]
  cases h3 : hasFlag flags LIBBSA_VERSION_TES3 <;>
  cases h4 : hasFlag flags LIBBSA_VERSION_TES4 <;>
  cases h5 : hasFlag flags LIBBSA_VERSION_TES5 <;>
  cases h0 : hasFlag flags LIBBSA_COMPRESS_LEVEL_0 <;>
  simp only [d3, d4, d0, Bool.false_and, Bool.true_and, Bool.and_true, Bool.and_false,
    Bool.not_true, Bool.not_false, Bool.false_eq_true, if_true, if_false, ite_true, ite_false,
    ↓reduceIte] <;>
  first
    | (left; rfl)
    | (split
       · left; rfl
       · right; exact ⟨_, _, rfl⟩)

/-- The try block around `Save` always logs the call it made. -/
theorem saveCall_calls (env : Env) (s : Wrapper) (h : BsaHandle) (p : String) (v c : Nat) :
    (saveCall env s h p v c).calls = [.save p v c] := by
  unfold saveCall
  split <;> rfl

/-- A failure the handlers of the shared tail catch is translated. -/
theorem fillAndOutput_translated (env : Env) (s : Wrapper) (h : BsaHandle)
    (temp : List BsaAsset) (calls : List Call) (f : Failure)
    (hf : (fillExtAssets env h temp).2 = some f) (hio : f.isIosFailure = false) :
    Translated (fillAndOutput env s h temp calls) f := by
  unfold fillAndOutput
  rw [hf]
  cases f with
  | libbsaError code what => exact ⟨rfl, rfl⟩
  | iosFailure what => simp [Failure.isIosFailure] at hio
  | badAlloc what => exact ⟨rfl, rfl⟩

/-- A libbsa error or a stream failure of the constructor is translated by
`bsa_open`, whatever the state of the wrapper. -/
theorem bsa_open_translates (env : Env) (s : Wrapper) (p : String) (f : Failure)
    (hc : env.construct (openFamily env p) p = .error f) (hna : f.isBadAlloc = false) :
    Translated (bsa_open env s (some p)) f := by
  simp only [bsa_open, hc]
  cases f with
  | libbsaError code what => exact ⟨rfl, rfl⟩
  | iosFailure what => exact ⟨rfl, rfl⟩
  | badAlloc what => simp [Failure.isBadAlloc] at hna

/-- On an open handle, a failure raised inside a try block of the wrapper and
named by one of its handlers is translated into a return code, and the pointer
to its message is stored.  These are: a libbsa error or stream failure of
`Save` (`bsa_save`); a libbsa error of `Extract` (`bsa_extract_asset`,
`bsa_extract_assets`); a libbsa error or allocation failure while the result
array is filled (`bsa_get_assets`, `bsa_extract_assets`). -/
theorem caught_failures_translated (env : Env) (s : Wrapper) (h : BsaHandle)
    (hbh : s.bh = some h) (hlive : s.bhDeleted = false) :
    (∀ p flags v c f, (bsa_save env s (some p) flags).calls = [.save p v c] →
      env.save h p v c = some f → f.isBadAlloc = false →
      Translated (bsa_save env s (some p) flags) f) ∧
    (∀ a dest ow code what,
      env.extractAsset h (env.fixPath a) dest ow = some (.libbsaError code what) →
      Translated (bsa_extract_asset env s (some a) (some dest) ow)
        (.libbsaError code what)) ∧
    (∀ pat dest paths ow temp code what, env.regexError pat = none →
      env.getMatchingAssets (freeExtAssets h) pat = .ok temp → temp.isEmpty = false →
      env.extractAssets (freeExtAssets h) temp dest ow = some (.libbsaError code what) →
      Translated (bsa_extract_assets env s (some pat) (some dest) (some paths) ow)
        (.libbsaError code what)) ∧
    (∀ pat paths temp f, env.regexError pat = none →
      env.getMatchingAssets (freeExtAssets h) pat = .ok temp → temp.isEmpty = false →
      (fillExtAssets env (freeExtAssets h) temp).2 = some f → f.isIosFailure = false →
      Translated (bsa_get_assets env s (some pat) (some paths)) f) ∧
    (∀ pat dest paths ow temp f, env.regexError pat = none →
      env.getMatchingAssets (freeExtAssets h) pat = .ok temp → temp.isEmpty = false →
      env.extractAssets (freeExtAssets h) temp dest ow = none →
      (fillExtAssets env (freeExtAssets h) temp).2 = some f → f.isIosFailure = false →
      Translated (bsa_extract_assets env s (some pat) (some dest) (some paths) ow) f) := by
  obtain ⟨bh, del, err, rel⟩ := s
  simp only at hbh hlive
  subst hbh hlive
  refine ⟨?_, ?_, ?_, ?_, ?_⟩
  · intro p flags v c f hcalls hsave hna
    rcases bsa_save_calls env ⟨some h, false, err, rel⟩ h p flags rfl rfl with h0 | ⟨v1, c1, heq⟩
    · rw [h0] at hcalls; simp at hcalls
    · rw [heq] at hcalls ⊢
      rw [saveCall_calls] at hcalls
      simp only [List.cons.injEq, Call.save.injEq, true_and, and_true] at hcalls
      obtain ⟨hv, hc⟩ := hcalls
      subst hv hc
      simp only [saveCall, hsave]
      cases f with
      | libbsaError code what => exact ⟨rfl, rfl⟩
      | iosFailure what => exact ⟨rfl, rfl⟩
      | badAlloc what => simp [Failure.isBadAlloc] at hna
  · intro a dest ow code what hx
    simp only [bsa_extract_asset, Bool.false_eq_true, if_false, hx]
    exact ⟨rfl, rfl⟩
  · intro pat dest paths ow temp code what hre hm hne hx
    simp only [bsa_extract_assets, Bool.false_eq_true, if_false, hre, hm, hne, hx]
    exact ⟨rfl, rfl⟩
  · intro pat paths temp f hre hm hne hf hio
    simp only [bsa_get_assets, Bool.false_eq_true, if_false, hre, hm, hne]
    exact fillAndOutput_translated env _ _ temp _ f hf hio
  · intro pat dest paths ow temp f hre hm hne hx hf hio
    simp only [bsa_extract_assets, Bool.false_eq_true, if_false, hre, hm, hne, hx]
    exact fillAndOutput_translated env _ _ temp _ f hf hio

/-! ## State left by a failing call -/

/-- C9, evaluated on the code: a successful `bsa_get_assets` stores a result
list of one path in the handle.  A following `bsa_get_assets` or
`bsa_extract_assets` whose pattern fails to compile returns
`LIBBSA_ERROR_INVALID_ARGS` and leaves the stored list cleared, and a
following `bsa_get_assets` whose result array cannot be allocated returns
`LIBBSA_ERROR_NO_MEM` and leaves a null array with a count of 1. -/
theorem failed_call_changes_result_list :
    bsa_get_assets matchingEnv openWrapper (some ".*") (some []) =
      returnOk listedWrapper [.getMatchingAssets ".*"]
        (.assetPaths (some ["meshes/a.nif"])) ∧
    bsa_get_assets badPatternEnv listedWrapper (some "(") (some []) =
      returnCaught
        { listedWrapper with
          bh := some { listedHandle with extAssets := none, extAssetsNum := 0 } }
        LIBBSA_ERROR_INVALID_ARGS "Unmatched marking parenthesis" [] (.assetPaths none) ∧
    bsa_extract_assets badPatternEnv listedWrapper (some "(") (some "out") (some []) true =
      returnCaught
        { listedWrapper with
          bh := some { listedHandle with extAssets := none, extAssetsNum := 0 } }
        LIBBSA_ERROR_INVALID_ARGS "Unmatched marking parenthesis" [] (.assetPaths none) ∧
    bsa_get_assets failingEnv listedWrapper (some ".*") (some []) =
      returnCaught
        { listedWrapper with
          bh := some { listedHandle with extAssets := none, extAssetsNum := 1 } }
        LIBBSA_ERROR_NO_MEM "bad allocation" [.getMatchingAssets ".*"]
        (.assetPaths none) := by
  decide

/-! ## The retained error message -/

theorem keeps_returnError (s : Wrapper) (code : Nat) (what : String) (calls : List Call)
    (out : Output) (before : Option String) (hc : (code != LIBBSA_OK) = true) :
    KeepsOrRecords (returnError s code what calls out) before := by
  simp [KeepsOrRecords, returnError, c_error, Result.returnedNonOk, hc]

theorem keeps_returnCaught (s : Wrapper) (code : Nat) (what : String) (calls : List Call)
    (out : Output) (before : Option String) (hc : (code != LIBBSA_OK) = true) :
    KeepsOrRecords (returnCaught s code what calls out) before := by
  simp [KeepsOrRecords, returnCaught, c_error, Result.returnedNonOk, hc]

theorem keeps_returnOk (s : Wrapper) (calls : List Call) (out : Output) :
    KeepsOrRecords (returnOk s calls out) s.extErrorString := by
  simp [KeepsOrRecords, returnOk, Result.returnedNonOk]

theorem keeps_throwOut (s : Wrapper) (f : Failure) (calls : List Call) (out : Output) :
    KeepsOrRecords (throwOut s f calls out) s.extErrorString := by
  simp [KeepsOrRecords, throwOut, Result.returnedNonOk]

theorem keeps_undefinedAccess (s : Wrapper) (calls : List Call) (out : Output) :
    KeepsOrRecords (undefinedAccess s calls out) s.extErrorString := by
  simp [KeepsOrRecords, undefinedAccess, Result.returnedNonOk]

/-- A failure of the copying loop is one the environment raised. -/
theorem fillFrom_nonOk (env : Env) (henv : env.RaisesNonOk) (temp : List BsaAsset)
    (f : Failure) (hf : (fillFrom env temp).2 = some f) : f.codeNonOk = true := by
  induction temp with
  | nil => simp [fillFrom] at hf
  | cons a rest ih =>
    unfold fillFrom at hf
    cases hc : env.toNewCStringFails a.path with
    | none => rw [hc] at hf; exact ih hf
    | some g =>
      rw [hc] at hf
      simp only [Option.some.injEq] at hf
      subst hf
      exact henv.toNewCString _ _ hc

/-- A failure of the try block "Fill external array" is one the environment
raised. -/
theorem fillExtAssets_nonOk (env : Env) (henv : env.RaisesNonOk) (h : BsaHandle)
    (temp : List BsaAsset) (f : Failure) (hf : (fillExtAssets env h temp).2 = some f) :
    f.codeNonOk = true := by
  unfold fillExtAssets at hf
  cases hn : env.newArrayFails temp.length with
  | none => rw [hn] at hf; exact fillFrom_nonOk env henv temp f hf
  | some g =>
    rw [hn] at hf
    simp only [Option.some.injEq] at hf
    subst hf
    exact henv.newArray _ _ hn

theorem keeps_fillAndOutput (env : Env) (henv : env.RaisesNonOk) (s : Wrapper)
    (h : BsaHandle) (temp : List BsaAsset) (calls : List Call) :
    KeepsOrRecords (fillAndOutput env s h temp calls) s.extErrorString := by
  unfold fillAndOutput
  cases hf : (fillExtAssets env h temp).2 with
  | none => exact keeps_returnOk _ _ _
  | some f =>
    have hn := fillExtAssets_nonOk env henv h temp f hf
    cases f with
    | libbsaError code what => exact keeps_returnCaught _ _ _ _ _ _ hn
    | iosFailure what => exact keeps_throwOut _ _ _ _
    | badAlloc what => exact keeps_returnCaught _ _ _ _ _ _ (by decide)

theorem keeps_bsa_open (env : Env) (henv : env.RaisesNonOk) (s : Wrapper)
    (path : Option String) : KeepsOrRecords (bsa_open env s path) s.extErrorString := by
  cases path with
  | none => exact keeps_returnError _ _ _ _ _ _ (by decide)
  | some p =>
    simp only [bsa_open]
    cases hc : env.construct (openFamily env p) p with
    | ok assets => exact keeps_returnOk _ _ _
    | error f =>
      have hn := henv.construct _ _ _ hc
      cases f with
      | libbsaError code what => exact keeps_returnCaught _ _ _ _ _ _ hn
      | iosFailure what => exact keeps_returnCaught _ _ _ _ _ _ (by decide)
      | badAlloc what => exact keeps_throwOut _ _ _ _

theorem keeps_saveCall (env : Env) (henv : env.RaisesNonOk) (s : Wrapper) (h : BsaHandle)
    (p : String) (v c : Nat) : KeepsOrRecords (saveCall env s h p v c) s.extErrorString := by
  unfold saveCall
  cases hc : env.save h p v c with
  | none => exact keeps_returnOk _ _ _
  | some f =>
    have hn := henv.save _ _ _ _ _ hc
    cases f with
    | libbsaError code what => exact keeps_returnCaught _ _ _ _ _ _ hn
    | iosFailure what => exact keeps_returnCaught _ _ _ _ _ _ (by decide)
    | badAlloc what => exact keeps_throwOut _ _ _ _

theorem keeps_bsa_save (env : Env) (henv : env.RaisesNonOk) (s : Wrapper)
    (path : Option String) (flags : Nat) :
    KeepsOrRecords (bsa_save env s path flags) s.extErrorString := by
  unfold bsa_save
  split
  · simp only []
    repeat' split
    all_goals first
      | exact keeps_returnError _ _ _ _ _ _ (by decide)
      | exact keeps_undefinedAccess _ _ _
      | exact keeps_saveCall env henv _ _ _ _ _
  · exact keeps_returnError _ _ _ _ _ _ (by decide)
theorem keeps_bsa_get_assets (env : Env) (henv : env.RaisesNonOk) (s : Wrapper)
    (contentPath : Option String) (assetPaths : Option (List String)) :
    KeepsOrRecords (bsa_get_assets env s contentPath assetPaths) s.extErrorString := by
  unfold bsa_get_assets
  split
  · repeat' split
    all_goals first
      | exact keeps_returnCaught { s with bh := _ } _ _ _ _ _ (by decide)
      | exact keeps_undefinedAccess _ _ _
      | exact keeps_returnOk { s with bh := _ } _ _
      | exact keeps_throwOut { s with bh := _ } _ _ _
      | exact keeps_fillAndOutput env henv _ _ _ _
  · exact keeps_returnError _ _ _ _ _ _ (by decide)

theorem keeps_bsa_contains_asset (env : Env) (s : Wrapper) (assetPath : Option String)
    (result : Option Bool) :
    KeepsOrRecords (bsa_contains_asset env s assetPath result) s.extErrorString := by
  unfold bsa_contains_asset
  split
  · repeat' split
    all_goals first
      | exact keeps_undefinedAccess _ _ _
      | exact keeps_returnOk _ _ _
      | exact keeps_throwOut _ _ _ _
  · exact keeps_returnError _ _ _ _ _ _ (by decide)

theorem keeps_bsa_extract_assets (env : Env) (henv : env.RaisesNonOk) (s : Wrapper)
    (contentPath destPath : Option String) (assetPaths : Option (List String))
    (overwrite : Bool) :
    KeepsOrRecords (bsa_extract_assets env s contentPath destPath assetPaths overwrite)
      s.extErrorString := by
  unfold bsa_extract_assets
  split
  · split
    · exact keeps_undefinedAccess _ _ _
    · split
      · exact keeps_returnCaught { s with bh := _ } _ _ _ _ _ (by decide)
      · split
        · exact keeps_throwOut { s with bh := _ } _ _ _
        · split
          · exact keeps_returnOk { s with bh := _ } _ _
          · split
            · rename_i hx
              exact keeps_returnCaught { s with bh := _ } _ _ _ _ _
                (henv.extractAssets _ _ _ _ _ hx)
            · exact keeps_throwOut { s with bh := _ } _ _ _
            · exact keeps_fillAndOutput env henv _ _ _ _
  · exact keeps_returnError _ _ _ _ _ _ (by decide)

theorem keeps_bsa_extract_asset (env : Env) (henv : env.RaisesNonOk) (s : Wrapper)
    (assetPath destPath : Option String) (overwrite : Bool) :
    KeepsOrRecords (bsa_extract_asset env s assetPath destPath overwrite)
      s.extErrorString := by
  unfold bsa_extract_asset
  split
  · split
    · exact keeps_undefinedAccess _ _ _
    · split
      · exact keeps_returnOk _ _ _
      · rename_i hx
        exact keeps_returnCaught _ _ _ _ _ _ (henv.extractAsset _ _ _ _ _ hx)
      · exact keeps_throwOut _ _ _ _
  · exact keeps_returnError _ _ _ _ _ _ (by decide)

/-- Every wrapper call either returns a non-OK code and leaves its own message
in `extErrorString`, or leaves `extErrorString` as it was. -/
theorem keeps_step (env : Env) (henv : env.RaisesNonOk) (s : Wrapper) (op : Op) :
    KeepsOrRecords (step env s op) s.extErrorString := by
  cases op with
  | is_compatible a b c => simp [step, KeepsOrRecords, Result.returnedNonOk]
  | get_version => simp [step, bsa_get_version, KeepsOrRecords, Result.returnedNonOk]
  | get_error_message details =>
    cases details with
    | none => exact keeps_returnError _ _ _ _ _ _ (by decide)
    | some d =>
      simp only [step, bsa_get_error_message]
      split
      · exact keeps_undefinedAccess _ _ _
      · exact keeps_returnOk _ _ _
  | cleanup =>
    simp only [step, bsa_cleanup]
    split
    · simp [KeepsOrRecords, Result.returnedNonOk]
    · exact keeps_undefinedAccess _ _ _
  | bsa_open path => exact keeps_bsa_open env henv s path
  | save path flags => exact keeps_bsa_save env henv s path flags
  | close =>
    simp only [step, bsa_close]
    split
    · simp [KeepsOrRecords, Result.returnedNonOk]
    · split
      · exact keeps_undefinedAccess _ _ _
      · simp [KeepsOrRecords, Result.returnedNonOk]
  | get_assets contentPath assetPaths =>
    exact keeps_bsa_get_assets env henv s contentPath assetPaths
  | contains_asset assetPath result => exact keeps_bsa_contains_asset env s assetPath result
  | set_assets assets =>
    simp only [step, bsa_set_assets]
    split
    · exact keeps_returnOk _ _ _
    · exact keeps_returnError _ _ _ _ _ _ (by decide)
  | add_asset asset =>
    simp only [step, bsa_add_asset]
    split
    · exact keeps_returnOk _ _ _
    · exact keeps_returnError _ _ _ _ _ _ (by decide)
  | remove_asset assetPath =>
    simp only [step, bsa_remove_asset]
    split
    · exact keeps_returnOk _ _ _
    · exact keeps_returnError _ _ _ _ _ _ (by decide)
  | extract_assets contentPath destPath assetPaths overwrite =>
    exact keeps_bsa_extract_assets env henv s contentPath destPath assetPaths overwrite
  | extract_asset assetPath destPath overwrite =>
    exact keeps_bsa_extract_asset env henv s assetPath destPath overwrite

/-- The pointer `extErrorString` holds after a sequence of calls designates
the message of the last call that returned a non-OK code. -/
theorem runState_message (ops : List (Env × Op)) :
    ∀ s : Wrapper, (∀ eo ∈ ops, eo.1.RaisesNonOk) →
      (runState s ops).extErrorString =
        lastFailureMessage s.extErrorString (runTrace s ops) := by
  induction ops with
  | nil => intro s _; rfl
  | cons eo rest ih =>
    intro s henv
    obtain ⟨env, op⟩ := eo
    have hstep := keeps_step env (henv (env, op) (List.mem_cons_self _ _)) s op
    simp only [runState, runTrace, lastFailureMessage]
    rw [ih _ (fun x hx => henv x (List.mem_cons_of_mem _ hx)), hstep]
/-- Nothing fails in `quietEnv`. -/
theorem quietEnv_raisesNonOk : quietEnv.RaisesNonOk := by
  constructor <;> intros <;> simp_all [quietEnv]

/-- Every libbsa error of `failingEnv` carries a non-OK code. -/
theorem failingEnv_raisesNonOk : failingEnv.RaisesNonOk := by
  constructor <;> intros <;> simp_all [failingEnv, quietEnv] <;> subst_vars <;> rfl

/-- After `sampleRun` the pointer `extErrorString` holds still designates the
message of the failed open, although three calls followed it. -/
theorem sampleRun_message :
    (runState Wrapper.initial sampleRun).extErrorString = some "not a BSA" ∧
    lastFailureMessage none (runTrace Wrapper.initial sampleRun) = some "not a BSA" := by
  decide

/-- C10, evaluated on the code.  A `bsa_open` that fails to parse returns
`LIBBSA_ERROR_PARSE_FAIL` and stores the pointer `e.what()`; the exception is
gone when the call returns, so the following `bsa_get_error_message` reads
text that no longer exists instead of returning `LIBBSA_OK` with the message.
After a failure whose message is a string literal (a null path), the retrieval
returns `LIBBSA_OK` and assigns the text to its own copy of `details`, so the
variable of the caller receives nothing; and `bsa_cleanup` applies `delete[]`
to the literal, which is undefined. -/
theorem retained_message_cannot_be_retrieved :
    bsa_open failingEnv Wrapper.initial (some "a.bsa") =
      returnCaught Wrapper.initial LIBBSA_ERROR_PARSE_FAIL "not a BSA"
        [.construct .tes4 "a.bsa"] .unset ∧
    (bsa_get_error_message (bsa_open failingEnv Wrapper.initial (some "a.bsa")).state
      (some "")).outcome = .undefined ∧
    bsa_open quietEnv Wrapper.initial none =
      returnError Wrapper.initial LIBBSA_ERROR_INVALID_ARGS "Null pointer passed." []
        .unset ∧
    bsa_get_error_message (bsa_open quietEnv Wrapper.initial none).state (some "") =
      returnOk (bsa_open quietEnv Wrapper.initial none).state []
        (.details (some "Null pointer passed.")) ∧
    Output.atCaller outputPassing
      (bsa_get_error_message (bsa_open quietEnv Wrapper.initial none).state
        (some "")).output = .unset ∧
    (bsa_cleanup (bsa_open quietEnv Wrapper.initial none).state).outcome = .undefined := by
  decide

/-! ## Matching and listing -/

/-- When every copy succeeds the loop fills each slot with the path of the
asset at the same position. -/
theorem fillFrom_ok (env : Env) (temp : List BsaAsset)
    (hcopy : ∀ a ∈ temp, env.toNewCStringFails a.path = none) :
    fillFrom env temp = (temp.map fun a => some a.path, none) := by
  induction temp with
  | nil => rfl
  | cons a rest ih =>
    have ha := hcopy a (List.mem_cons_self _ _)
    have hrest := ih (fun b hb => hcopy b (List.mem_cons_of_mem _ hb))
    simp only [fillFrom, ha, hrest, List.map_cons]

/-- Reading back an array whose slots are all written gives the paths. -/
theorem reduceOption_paths (temp : List BsaAsset) :
    (temp.map fun a => some a.path).reduceOption = temp.map fun a => a.path := by
  induction temp with
  | nil => rfl
  | cons a rest ih => simp [List.reduceOption_cons_of_some, ih]

/-- Freeing the stored list of a consistent handle leaves a null array and a
count of 0. -/
theorem freeExtAssets_consistent (h : BsaHandle) (hcons : h.listConsistent = true) :
    freeExtAssets h = { h with extAssets := none, extAssetsNum := 0 } := by
  obtain ⟨fam, path, idx, ext, num⟩ := h
  cases ext with
  | none =>
    simp only [BsaHandle.listConsistent, Option.isSome_none, Bool.false_or, beq_iff_eq]
      at hcons
    subst hcons
    rfl
  | some a => rfl

/-- C12, evaluated on the code: in the state left by a failed allocation of
the result array the handle is open with a null array and a stored count
of 1.  A call of `bsa_get_assets` that matches nothing returns `LIBBSA_OK`
with a null output array and leaves the stored count at 1. -/
theorem stale_count_after_no_match :
    staleWrapper.isOpen = true ∧
    bsa_get_assets quietEnv staleWrapper (some "sound/.*") (some []) =
      returnOk staleWrapper [.getMatchingAssets "sound/.*"] (.assetPaths none) ∧
    staleWrapper.bh = some { emptyHandle with extAssets := none, extAssetsNum := 1 } := by
  decide

/-- Take an open handle whose stored list is consistent (a null array goes
with a count of 0, as after `bsa_open`), a pattern that compiles, a matching
routine that returns the list `temp`, and allocations that succeed.  Then
`bsa_get_assets` returns `LIBBSA_OK` after the one call of the matching
routine.  If `temp` is empty the output array is null, the stored array is
null and the stored count is 0.  Otherwise the output is the list of the
paths of `temp`, entry by entry in the same order, and the handle stores the
same paths with count `temp.length`. -/
theorem bsa_get_assets_outputs_matches (env : Env) (s : Wrapper) (h : BsaHandle)
    (pat : String) (paths : List String) (temp : List BsaAsset)
    (hbh : s.bh = some h) (hlive : s.bhDeleted = false)
    (hcons : h.listConsistent = true)
    (hre : env.regexError pat = none)
    (hm : env.getMatchingAssets (freeExtAssets h) pat = .ok temp)
    (halloc : env.newArrayFails temp.length = none)
    (hcopy : ∀ a ∈ temp, env.toNewCStringFails a.path = none) :
    (bsa_get_assets env s (some pat) (some paths)).outcome = .returned LIBBSA_OK ∧
    (bsa_get_assets env s (some pat) (some paths)).calls = [.getMatchingAssets pat] ∧
    (bsa_get_assets env s (some pat) (some paths)).output =
      .assetPaths (if temp.isEmpty then none else some (temp.map fun a => a.path)) ∧
    (bsa_get_assets env s (some pat) (some paths)).state.bh =
      some (if temp.isEmpty then { h with extAssets := none, extAssetsNum := 0 }
            else { h with extAssets := some (temp.map fun a => some a.path),
                          extAssetsNum := temp.length }) := by
  obtain ⟨bh, del, err, rel⟩ := s
  simp only at hbh hlive
  subst hbh hlive
  simp only [bsa_get_assets, Bool.false_eq_true, if_false, hre, hm]
  cases hemp : temp.isEmpty with
  | true =>
    simp only [if_true, returnOk, freeExtAssets_consistent h hcons]
    exact ⟨trivial, trivial, trivial, trivial⟩
  | false =>
    have hfill : fillExtAssets env (freeExtAssets h) temp =
        ({ h with extAssets := some (temp.map fun a => some a.path),
                  extAssetsNum := temp.length }, none) := by
      simp only [fillExtAssets, halloc, fillFrom_ok env temp hcopy,
        freeExtAssets_consistent h hcons]
    simp only [Bool.false_eq_true, if_false, fillAndOutput, hfill, returnOk,
      Option.getD_some, reduceOption_paths]
    exact ⟨trivial, trivial, trivial, trivial⟩

/-- Two matches on the open handle come out in the order of the matching
routine, and no match on a handle that stores a list gives a null array with
a stored count of 0. -/
theorem bsa_get_assets_outputs_matches_example :
    ((bsa_get_assets twoMatchEnv openWrapper (some ".*") (some [])).outcome =
        .returned LIBBSA_OK ∧
      (bsa_get_assets twoMatchEnv openWrapper (some ".*") (some [])).calls =
        [.getMatchingAssets ".*"] ∧
      (bsa_get_assets twoMatchEnv openWrapper (some ".*") (some [])).output =
        .assetPaths (some ["meshes/a.nif", "meshes/b.nif"]) ∧
      (bsa_get_assets twoMatchEnv openWrapper (some ".*") (some [])).state.bh =
        some { emptyHandle with
               extAssets := some [some "meshes/a.nif", some "meshes/b.nif"],
               extAssetsNum := 2 }) ∧
    ((bsa_get_assets quietEnv listedWrapper (some "sound/.*") (some [])).outcome =
        .returned LIBBSA_OK ∧
      (bsa_get_assets quietEnv listedWrapper (some "sound/.*") (some [])).calls =
        [.getMatchingAssets "sound/.*"] ∧
      (bsa_get_assets quietEnv listedWrapper (some "sound/.*") (some [])).output =
        .assetPaths none ∧
      (bsa_get_assets quietEnv listedWrapper (some "sound/.*") (some [])).state.bh =
        some { listedHandle with extAssets := none, extAssetsNum := 0 }) :=
  ⟨bsa_get_assets_outputs_matches twoMatchEnv openWrapper emptyHandle ".*" []
      [⟨"meshes/a.nif", .archive 36 10 false⟩, ⟨"meshes/b.nif", .archive 46 12 true⟩]
      rfl rfl rfl rfl rfl rfl (fun _ _ => rfl),
   bsa_get_assets_outputs_matches quietEnv listedWrapper listedHandle "sound/.*" [] []
      rfl rfl rfl rfl rfl rfl (fun _ _ => rfl)⟩

/-! ## Mutation operations -/

/-- C13, evaluated on the code: the index of the open handle holds
`meshes/a.nif`, and `bsa_add_asset` for an asset with that destination path
returns `LIBBSA_OK` and changes nothing. -/
theorem bsa_add_asset_accepts_duplicate :
    indexedWrapper.isOpen = true ∧
    indexedHandle.hasPath "meshes/a.nif" = true ∧
    bsa_add_asset indexedWrapper (some ⟨some "new/a.nif", some "meshes/a.nif"⟩) =
      returnOk indexedWrapper [] .unset := by
  decide

/-- C14: on an open handle and with non-null arguments, `bsa_set_assets`,
`bsa_add_asset` and `bsa_remove_asset` return `LIBBSA_OK`, make no call into
the archive object and leave the whole state as it was: the asset index and
the stored result list of the handle, and the retained error message. -/
theorem mutation_operations_are_noops (s : Wrapper) (assets : List bsa_asset)
    (asset : bsa_asset) (assetPath : String) (hopen : s.isOpen = true) :
    bsa_set_assets s (some assets) = returnOk s [] .unset ∧
    bsa_add_asset s (some asset) = returnOk s [] .unset ∧
    bsa_remove_asset s (some assetPath) = returnOk s [] .unset ∧
    (returnOk s [] .unset).outcome = .returned LIBBSA_OK ∧
    (returnOk s [] .unset).state = s := by
  obtain ⟨bh, del, err, rel⟩ := s
  cases bh with
  | none => simp [Wrapper.isOpen] at hopen
  | some h => exact ⟨rfl, rfl, rfl, rfl, rfl⟩

/-- Witness for C14: the three operations on the handle whose index holds
`meshes/a.nif`. -/
theorem mutation_operations_are_noops_witness :
    bsa_set_assets indexedWrapper (some []) = returnOk indexedWrapper [] .unset ∧
    bsa_add_asset indexedWrapper (some ⟨some "new/b.nif", some "meshes/b.nif"⟩) =
      returnOk indexedWrapper [] .unset ∧
    bsa_remove_asset indexedWrapper (some "meshes/a.nif") =
      returnOk indexedWrapper [] .unset ∧
    (returnOk indexedWrapper [] .unset).outcome = .returned LIBBSA_OK ∧
    (returnOk indexedWrapper [] .unset).state = indexedWrapper :=
  mutation_operations_are_noops indexedWrapper [] ⟨some "new/b.nif", some "meshes/b.nif"⟩
    "meshes/a.nif" rfl

end BSAWrapper

namespace libbsa.tes4

/-! ## The Tes4-type records -/

theorem leBytes_length (width v : Nat) : (leBytes width v).length = width := by
  simp [leBytes]

theorem and_shiftRight (a b n : Nat) : (a &&& b) >>> n = a >>> n &&& b >>> n := by
  apply Nat.eq_of_testBit_eq
  intro i
  simp [Nat.testBit_shiftRight]

theorem and_mod_two_pow (a b n : Nat) : (a &&& b) % 2 ^ n = a % 2 ^ n &&& b % 2 ^ n := by
  apply Nat.eq_of_testBit_eq
  intro i
  simp only [Nat.testBit_mod_two_pow, Nat.testBit_and]
  cases decide (i < n) <;> simp

/-- C15, counterexample: the mask is not 2^31.  Masking it out of the stored
size 0x40000000 gives 0 and not 0x40000000 mod 2^31, and masking it out of
0x80000005 leaves the top bit in place. -/
theorem invert_flag_is_not_top_bit :
    FILE_INVERT_COMPRESSED ≠ 2 ^ 31 ∧
    maskOut 0x40000000 = 0 ∧ 0x40000000 % 2 ^ 31 = 0x40000000 ∧
    maskOut 0x80000005 = 0x80000005 ∧ 0x80000005 % 2 ^ 31 = 5 := by
  decide

/-- C15 as amended: the compression-inversion flag is bit 30 of the 32-bit
size field, `FILE_INVERT_COMPRESSED = 2^30`.  Masking it out of a stored
32-bit value `s` clears bit 30 and keeps every other bit: bit 31 and the low
30 bits.  For `s` below 2^31 this is `s mod 2^30`. -/
theorem invert_flag_is_bit_30 (s : Nat) (hs : s < 2 ^ 32) :
    FILE_INVERT_COMPRESSED = 2 ^ 30 ∧
    maskOut s = s / 2 ^ 31 * 2 ^ 31 + s % 2 ^ 30 ∧
    (s < 2 ^ 31 → maskOut s = s % 2 ^ 30) := by
  have hdiv : maskOut s / 2 ^ 30 = s / 2 ^ 30 &&& 2 := by
    have := and_shiftRight s (not32 FILE_INVERT_COMPRESSED) 30
    simp only [Nat.shiftRight_eq_div_pow] at this
    rw [maskOut, this]
    rfl
  have hmod : maskOut s % 2 ^ 30 = s % 2 ^ 30 := by
    rw [maskOut, and_mod_two_pow]
    have h1 : not32 FILE_INVERT_COMPRESSED % 2 ^ 30 = 2 ^ 30 - 1 := by decide
    rw [h1, Nat.and_pow_two_sub_one_eq_mod, Nat.mod_mod]
  have hk : s / 2 ^ 30 < 4 := by omega
  have hand : s / 2 ^ 30 &&& 2 = 2 * (s / 2 ^ 30 / 2) := by
    generalize s / 2 ^ 30 = k at hk
    interval_cases k <;> rfl
  have hsplit := Nat.div_add_mod (maskOut s) (2 ^ 30)
  rw [hdiv, hmod, hand] at hsplit
  refine ⟨rfl, by omega, fun h31 => by omega⟩

/-- Witness for C15 as amended: the stored size 0xC0000123 has bits 31 and 30
set; masking the flag out leaves 0x80000123. -/
theorem invert_flag_is_bit_30_witness :
    FILE_INVERT_COMPRESSED = 2 ^ 30 ∧
    maskOut 0xC0000123 = 0xC0000123 / 2 ^ 31 * 2 ^ 31 + 0xC0000123 % 2 ^ 30 ∧
    (0xC0000123 < 2 ^ 31 → maskOut 0xC0000123 = 0xC0000123 % 2 ^ 30) :=
  invert_flag_is_bit_30 0xC0000123 (by decide)

/-- C16: the `Header` record has nine 32-bit members and no padding, so its
size, and the length of its on-disk image, is 36 bytes, the value of
`BSA_FOLDER_RECORD_OFFSET`: the folder records start directly after the
header.  `FolderRecord` and `FileRecord` are a 64-bit hash followed by two
32-bit members, without padding, 16 bytes each. -/
theorem record_sizes :
    Header.members.length = 9 ∧ (∀ t ∈ Header.members, t = CType.uint32_t) ∧
    sizeofStruct Header.members = BSA_FOLDER_RECORD_OFFSET ∧
    packedSize Header.members = sizeofStruct Header.members ∧
    BSA_FOLDER_RECORD_OFFSET = 36 ∧
    (∀ h : Header, h.serialize.length = BSA_FOLDER_RECORD_OFFSET) ∧
    FolderRecord.members = [.uint64_t, .uint32_t, .uint32_t] ∧
    sizeofStruct FolderRecord.members = 16 ∧
    packedSize FolderRecord.members = 16 ∧
    (∀ r : FolderRecord, r.serialize.length = 16) ∧
    FileRecord.members = [.uint64_t, .uint32_t, .uint32_t] ∧
    sizeofStruct FileRecord.members = 16 ∧
    packedSize FileRecord.members = 16 ∧
    (∀ r : FileRecord, r.serialize.length = 16) := by
  refine ⟨rfl, by decide, by decide, by decide, rfl, ?_, rfl, by decide, by decide, ?_, rfl,
    by decide, by decide, ?_⟩
  · intro h
    simp [Header.serialize, leBytes_length, BSA_FOLDER_RECORD_OFFSET]
  · intro r
    simp [FolderRecord.serialize, leBytes_length]
  · intro r
    simp [FileRecord.serialize, leBytes_length]

end libbsa.tes4
